import Mathlib

/-!
Verification of the poster-generator screen (src/app/index.tsx).

The screen is a single view with local state (active tab, prompt text,
selected carousel index, horizontal scroll offset) over a fixed catalog
of six poster types.  The only numeric logic is the scroll-driven card
transform in PosterCard, built from reanimated interpolate with
Extrapolate.CLAMP over three-point ranges.  Numbers are modelled as
rationals; the JavaScript doubles involved are small decimal constants
and linear combinations of them, represented exactly here.
-/

/-- Design constant CARD_WIDTH = 110. -/
def CARD_WIDTH : ℚ := 110

/-- Design constant CARD_HEIGHT = CARD_WIDTH * 1.3. -/
def CARD_HEIGHT : ℚ := CARD_WIDTH * 1.3

/-- Design constant CARD_SPACING = 14. -/
def CARD_SPACING : ℚ := 14

/-- Design constant LEFT_PADDING = 18. -/
def LEFT_PADDING : ℚ := 18

/-- The PosterType record: key, title, optional subtitle, placeholder
color, image URL, optional tag. -/
structure PosterType where
  key : String
  title : String
  subtitle : Option String := none
  color : String
  image : String
  tag : Option String := none
deriving Repr, DecidableEq

/-- The fixed POSTER_TYPES catalog (six hardcoded entries). -/
def POSTER_TYPES : List PosterType :=
  [ { key := "display"
    , title := "Display"
    , subtitle := some "Prod"
    , color := "#5F4BB6"
    , tag := some "New Limited Edition"
    , image := "https://images.unsplash.com/photo-1507525428034-b723cf961d3e" }
  , { key := "promotion"
    , title := "Promotion"
    , color := "#3A7A5E"
    , tag := some "Up to 50% Off"
    , image := "https://images.unsplash.com/photo-1503602642458-232111445657" }
  , { key := "branding"
    , title := "Branding"
    , color := "#3C3C3C"
    , tag := some "Editor\x27s Choice"
    , image := "https://images.unsplash.com/photo-1529101091764-c3526daf38fe" }
  , { key := "announcement"
    , title := "Announce"
    , color := "#3E7CB1"
    , image := "https://images.unsplash.com/photo-1504384764586-bb4cdc1707b0" }
  , { key := "poster"
    , title := "Poster"
    , color := "#7A3A3A"
    , image := "https://images.unsplash.com/photo-1522202176988-66273c2fd55f" }
  , { key := "menu"
    , title := "Menu"
    , color := "#4B7F99"
    , image := "https://images.unsplash.com/photo-1555396273-367ea4eb4db5" } ]

/-- reanimated interpolate over a three-point input range with
Extrapolate.CLAMP: piecewise-linear through (i0,o0), (i1,o1), (i2,o2),
clamped to o0 below i0 and to o2 above i2. -/
def interpolate3 (x i0 i1 i2 o0 o1 o2 : ℚ) : ℚ :=
  if x ≤ i0 then o0
  else if x ≤ i1 then o0 + (x - i0) * (o1 - o0) / (i1 - i0)
  else if x ≤ i2 then o1 + (x - i1) * (o2 - o1) / (i2 - i1)
  else o2

/-- leftEdge = index * (CARD_WIDTH + CARD_SPACING) + LEFT_PADDING
(PosterCard, line 136). -/
def leftEdge (index : ℕ) : ℚ :=
  (index : ℚ) * (CARD_WIDTH + CARD_SPACING) + LEFT_PADDING

/-- distanceToLeft = leftEdge - scrollX.value (PosterCard, line 137). -/
def distanceToLeft (index : ℕ) (scrollX : ℚ) : ℚ :=
  leftEdge index - scrollX

/-- The scale transform: interpolate(|distanceToLeft|,
[0, CARD_WIDTH, CARD_WIDTH*2], [1.05, 0.95, 0.9], CLAMP). -/
def cardScale (index : ℕ) (scrollX : ℚ) : ℚ :=
  interpolate3 |distanceToLeft index scrollX|
    0 CARD_WIDTH (CARD_WIDTH * 2) 1.05 0.95 0.9

/-- The translateY transform: interpolate(|distanceToLeft|,
[0, CARD_WIDTH, CARD_WIDTH*2], [-6, 0, 4], CLAMP). -/
def cardTranslateY (index : ℕ) (scrollX : ℚ) : ℚ :=
  interpolate3 |distanceToLeft index scrollX|
    0 CARD_WIDTH (CARD_WIDTH * 2) (-6) 0 4

/-- The borderOpacity value: interpolate(|distanceToLeft|,
[0, CARD_WIDTH*0.75, CARD_WIDTH*1.5], [1, 0.35, 0.15], CLAMP). -/
def cardBorderOpacity (index : ℕ) (scrollX : ℚ) : ℚ :=
  interpolate3 |distanceToLeft index scrollX|
    0 (CARD_WIDTH * 0.75) (CARD_WIDTH * 1.5) 1 0.35 0.15

/-- The shadowOpacity value: 0.35 * (1.2 - Math.min(scale, 1.2))
(PosterCard, line 163). -/
def cardShadowOpacity (index : ℕ) (scrollX : ℚ) : ℚ :=
  0.35 * (1.2 - min (cardScale index scrollX) 1.2)

example : cardScale 0 18 = 1.05 := by
  norm_num [cardScale, distanceToLeft, leftEdge, interpolate3,
    CARD_WIDTH, CARD_SPACING, LEFT_PADDING]

example : cardScale 0 (18 + 55) = 1 := by
  norm_num [cardScale, distanceToLeft, leftEdge, interpolate3,
    CARD_WIDTH, CARD_SPACING, LEFT_PADDING]

example : cardTranslateY 0 (18 + 300) = 4 := by
  norm_num [cardTranslateY, distanceToLeft, leftEdge, interpolate3,
    CARD_WIDTH, CARD_SPACING, LEFT_PADDING]

example : cardBorderOpacity 0 (18 + 165) = 0.15 := by
  norm_num [cardBorderOpacity, distanceToLeft, leftEdge, interpolate3,
    CARD_WIDTH, CARD_SPACING, LEFT_PADDING]

example : cardShadowOpacity 0 18 = 0.0525 := by
  norm_num [cardShadowOpacity, cardScale, distanceToLeft, leftEdge,
    interpolate3, CARD_WIDTH, CARD_SPACING, LEFT_PADDING]

/-- The SegmentedControl option labels (SegmentedControl, line 112). -/
def segmentLabels : List String := ["Smart script", "Advanced script"]

/-- The active-marker test of a segment: the source renders the gradient
under segment i exactly when i === activeIndex (line 115). -/
def segmentIsActive (i activeIndex : ℕ) : Bool := i == activeIndex

/-- The ephemeral UI state owned by PosterGeneratorScreen: activeTab and
prompt (lines 243-246), scrollX (line 248), selected (line 249).  The
POSTER_TYPES catalog is carried in the state to express that no event
mutates it. -/
structure ScreenState where
  activeTab : ℕ
  prompt : String
  scrollX : ℚ
  selected : ℕ
  posterTypes : List PosterType
deriving Repr, DecidableEq

/-- The initial state: useState(0) for activeTab, the hardcoded default
prompt, scrollX = 0 shared value, useState(0) for selected, and the
module-level POSTER_TYPES catalog. -/
def initialState : ScreenState :=
  { activeTab := 0
  , prompt := "stunning promotional image of a deliciously decorated cake, emphasiszing its layers, frosting, and toppings in an enticing setting."
  , scrollX := 0
  , selected := 0
  , posterTypes := POSTER_TYPES }

/-- The user-interaction events of the screen.  Tab taps exist only for
the two rendered segments (Fin 2), card taps only for the six rendered
cards (Fin 6); scroll carries the new contentOffset.x; the Generate
button and the two settings rows are also tappable. -/
inductive Event where
  | tapTab (i : Fin 2)
  | tapCard (i : Fin 6)
  | editPrompt (t : String)
  | scroll (x : ℚ)
  | tapGenerate
  | tapSizeRow
  | tapCategoryRow
deriving Repr, DecidableEq

/-- One event step of the screen state.  tapTab i runs setActiveTab(i)
(line 113 via line 272); tapCard i runs setSelected(i) (line 291);
editPrompt t runs setPrompt(t) (line 301); scroll x assigns
scrollX.value = x (lines 252-257); the Generate button handler is
an empty closure (line 315) and the settings rows have no handler
(lines 212, 220), so those taps leave the state unchanged. -/
def step (s : ScreenState) : Event → ScreenState
  | Event.tapTab i => { s with activeTab := i.val }
  | Event.tapCard i => { s with selected := i.val }
  | Event.editPrompt t => { s with prompt := t }
  | Event.scroll x => { s with scrollX := x }
  | Event.tapGenerate => s
  | Event.tapSizeRow => s
  | Event.tapCategoryRow => s

/-- Run a list of events from a state. -/
def runEvents (s : ScreenState) (evs : List Event) : ScreenState :=
  evs.foldl step s

/-- The string displayed by the prompt TextInput: its value prop is the
prompt state (line 300). -/
def textInputValue (s : ScreenState) : String := s.prompt

example : (runEvents initialState [Event.tapCard 3, Event.scroll 40]).selected = 3 := by
  decide

/-- Bounds of the scale interpolation. -/
lemma scale_interp_bounds (d : ℚ) :
    0.9 ≤ interpolate3 d 0 CARD_WIDTH (CARD_WIDTH * 2) 1.05 0.95 0.9 ∧
    interpolate3 d 0 CARD_WIDTH (CARD_WIDTH * 2) 1.05 0.95 0.9 ≤ 1.05 := by
  unfold interpolate3 CARD_WIDTH
  split_ifs <;> constructor <;> linarith

/-- Bounds of the translateY interpolation. -/
lemma translateY_interp_bounds (d : ℚ) :
    -6 ≤ interpolate3 d 0 CARD_WIDTH (CARD_WIDTH * 2) (-6) 0 4 ∧
    interpolate3 d 0 CARD_WIDTH (CARD_WIDTH * 2) (-6) 0 4 ≤ 4 := by
  unfold interpolate3 CARD_WIDTH
  split_ifs <;> constructor <;> linarith

/-- The scale interpolation is non-increasing. -/
lemma scale_interp_mono (a b : ℚ) (hab : a ≤ b) :
    interpolate3 b 0 CARD_WIDTH (CARD_WIDTH * 2) 1.05 0.95 0.9 ≤
      interpolate3 a 0 CARD_WIDTH (CARD_WIDTH * 2) 1.05 0.95 0.9 := by
  unfold interpolate3 CARD_WIDTH
  split_ifs <;> linarith

/-- The translateY interpolation is non-decreasing. -/
lemma translateY_interp_mono (a b : ℚ) (hab : a ≤ b) :
    interpolate3 a 0 CARD_WIDTH (CARD_WIDTH * 2) (-6) 0 4 ≤
      interpolate3 b 0 CARD_WIDTH (CARD_WIDTH * 2) (-6) 0 4 := by
  unfold interpolate3 CARD_WIDTH
  split_ifs <;> linarith

/-- The borderOpacity interpolation is non-increasing. -/
lemma border_interp_mono (a b : ℚ) (hab : a ≤ b) :
    interpolate3 b 0 (CARD_WIDTH * 0.75) (CARD_WIDTH * 1.5) 1 0.35 0.15 ≤
      interpolate3 a 0 (CARD_WIDTH * 0.75) (CARD_WIDTH * 1.5) 1 0.35 0.15 := by
  unfold interpolate3 CARD_WIDTH
  norm_num
  split_ifs <;> linarith

/-- Past 2 * CARD_WIDTH the scale interpolation sits at 0.9. -/
lemma scale_interp_saturated (d : ℚ) (hd : CARD_WIDTH * 2 ≤ d) :
    interpolate3 d 0 CARD_WIDTH (CARD_WIDTH * 2) 1.05 0.95 0.9 = 0.9 := by
  unfold interpolate3 CARD_WIDTH at *
  split_ifs with h1 h2 h3
  · linarith
  · linarith
  · have hd220 : d = 220 := by linarith
    rw [hd220]; norm_num
  · rfl

/-- Past 2 * CARD_WIDTH the translateY interpolation sits at 4. -/
lemma translateY_interp_saturated (d : ℚ) (hd : CARD_WIDTH * 2 ≤ d) :
    interpolate3 d 0 CARD_WIDTH (CARD_WIDTH * 2) (-6) 0 4 = 4 := by
  unfold interpolate3 CARD_WIDTH at *
  split_ifs with h1 h2 h3
  · linarith
  · linarith
  · have hd220 : d = 220 := by linarith
    rw [hd220]; norm_num
  · rfl

/-- Past 1.5 * CARD_WIDTH the borderOpacity interpolation sits at 0.15. -/
lemma border_interp_saturated (d : ℚ) (hd : CARD_WIDTH * 1.5 ≤ d) :
    interpolate3 d 0 (CARD_WIDTH * 0.75) (CARD_WIDTH * 1.5) 1 0.35 0.15 = 0.15 := by
  unfold interpolate3 CARD_WIDTH at *
  norm_num at *
  split_ifs with h1 h2 h3
  · linarith
  · linarith
  · have hd165 : d = 165 := by linarith
    rw [hd165]; norm_num
  · rfl

/-- step preserves the index bounds: selected stays below six and
activeTab below two. -/
lemma step_index_bounds (s : ScreenState) (e : Event)
    (h : s.selected ≤ 5 ∧ s.activeTab ≤ 1) :
    (step s e).selected ≤ 5 ∧ (step s e).activeTab ≤ 1 := by
  cases e with
  | tapTab i => exact ⟨h.1, Nat.lt_succ_iff.mp i.isLt⟩
  | tapCard i => exact ⟨Nat.lt_succ_iff.mp i.isLt, h.2⟩
  | editPrompt t => exact h
  | scroll x => exact h
  | tapGenerate => exact h
  | tapSizeRow => exact h
  | tapCategoryRow => exact h

/-- runEvents preserves the index bounds. -/
lemma runEvents_index_bounds (evs : List Event) :
    ∀ s : ScreenState, s.selected ≤ 5 ∧ s.activeTab ≤ 1 →
      (runEvents s evs).selected ≤ 5 ∧ (runEvents s evs).activeTab ≤ 1 := by
  induction evs with
  | nil => exact fun s h => h
  | cons e evs ih => exact fun s h => ih (step s e) (step_index_bounds s e h)

/-- step never touches the posterTypes catalog. -/
lemma step_posterTypes (s : ScreenState) (e : Event) :
    (step s e).posterTypes = s.posterTypes := by
  cases e <;> rfl

/-- runEvents never touches the posterTypes catalog. -/
lemma runEvents_posterTypes (evs : List Event) :
    ∀ s : ScreenState, (runEvents s evs).posterTypes = s.posterTypes := by
  induction evs with
  | nil => exact fun s => rfl
  | cons e evs ih => exact fun s => (ih (step s e)).trans (step_posterTypes s e)

/-- Claim C1: for every card index and every horizontal scroll offset,
the card transform produces a scale value in [0.9, 1.05] and a
translateY value in [-6, 4]. -/
theorem C1_card_transform_in_range (index : ℕ) (scrollX : ℚ) :
    0.9 ≤ cardScale index scrollX ∧ cardScale index scrollX ≤ 1.05 ∧
    -6 ≤ cardTranslateY index scrollX ∧ cardTranslateY index scrollX ≤ 4 := by
  obtain ⟨h1, h2⟩ := scale_interp_bounds |distanceToLeft index scrollX|
  obtain ⟨h3, h4⟩ := translateY_interp_bounds |distanceToLeft index scrollX|
  exact ⟨h1, h2, h3, h4⟩

/-- Claim C2: for a fixed card index, scale, translateY and
borderOpacity are monotone in the absolute distance between the card
left edge and the scroll offset: scale is non-increasing toward 0.9,
translateY non-decreasing toward 4, borderOpacity non-increasing toward
0.15, and each is constant at its terminal value once the clamping
breakpoint (2 * CARD_WIDTH, resp. 1.5 * CARD_WIDTH) is passed. -/
theorem C2_card_transform_monotone (index : ℕ) (s1 s2 : ℚ)
    (h : |distanceToLeft index s1| ≤ |distanceToLeft index s2|) :
    cardScale index s2 ≤ cardScale index s1 ∧
    cardTranslateY index s1 ≤ cardTranslateY index s2 ∧
    cardBorderOpacity index s2 ≤ cardBorderOpacity index s1 ∧
    (CARD_WIDTH * 2 ≤ |distanceToLeft index s2| →
      cardScale index s2 = 0.9 ∧ cardTranslateY index s2 = 4) ∧
    (CARD_WIDTH * 1.5 ≤ |distanceToLeft index s2| →
      cardBorderOpacity index s2 = 0.15) := by
  refine ⟨scale_interp_mono _ _ h, translateY_interp_mono _ _ h,
    border_interp_mono _ _ h, fun hsat => ?_, fun hsat => ?_⟩
  · exact ⟨scale_interp_saturated _ hsat, translateY_interp_saturated _ hsat⟩
  · exact border_interp_saturated _ hsat

/-- Witness for C2 at index 0, scroll offsets 18 (distance 0) and 258
(distance 240, past both breakpoints). -/
theorem C2_card_transform_monotone_witness :
    cardScale 0 258 ≤ cardScale 0 18 ∧
    cardTranslateY 0 18 ≤ cardTranslateY 0 258 ∧
    cardBorderOpacity 0 258 ≤ cardBorderOpacity 0 18 ∧
    cardScale 0 258 = 0.9 ∧ cardTranslateY 0 258 = 4 ∧
    cardBorderOpacity 0 258 = 0.15 := by
  have hd1 : distanceToLeft 0 18 = 0 := by
    norm_num [distanceToLeft, leftEdge, CARD_WIDTH, CARD_SPACING, LEFT_PADDING]
  have hd2 : distanceToLeft 0 258 = -240 := by
    norm_num [distanceToLeft, leftEdge, CARD_WIDTH, CARD_SPACING, LEFT_PADDING]
  have habs2 : |distanceToLeft 0 258| = 240 := by
    rw [hd2, abs_neg, abs_of_nonneg (by norm_num : (0:ℚ) ≤ 240)]
  obtain ⟨h1, h2, h3, h4, h5⟩ := C2_card_transform_monotone 0 18 258
    (by rw [hd1, habs2]; norm_num)
  have hs2 : CARD_WIDTH * 2 ≤ |distanceToLeft 0 258| := by
    rw [habs2, CARD_WIDTH]; norm_num
  have hs15 : CARD_WIDTH * 1.5 ≤ |distanceToLeft 0 258| := by
    rw [habs2, CARD_WIDTH]; norm_num
  exact ⟨h1, h2, h3, (h4 hs2).1, (h4 hs2).2, h5 hs15⟩

/-- Claim C3: tapping the carousel card at position i sets the selected
index state to exactly i, for every i among the six rendered cards. -/
theorem C3_tap_card_selects (s : ScreenState) (i : Fin 6) :
    (step s (Event.tapCard i)).selected = i.val := rfl

/-- Claim C4: editing the prompt with text t stores exactly t, the
TextInput displays the stored prompt, and edit followed by read is the
identity on strings. -/
theorem C4_prompt_round_trip (s : ScreenState) (t : String) :
    (step s (Event.editPrompt t)).prompt = t ∧
    textInputValue (step s (Event.editPrompt t)) = t ∧
    (∀ s2 : ScreenState, textInputValue s2 = s2.prompt) :=
  ⟨rfl, rfl, fun _ => rfl⟩

/-- Claim C5: in every state reachable from the initial state by the
user-interaction events, the selected index is within the six-entry
catalog bounds (selected ≤ 5) and the active tab index is in 0..1. -/
theorem C5_reachable_index_invariant (evs : List Event) :
    (runEvents initialState evs).selected ≤ 5 ∧
    (runEvents initialState evs).activeTab ≤ 1 :=
  runEvents_index_bounds evs initialState ⟨Nat.zero_le 5, Nat.zero_le 1⟩

/-- Claim C6: the initial state has the hardcoded default prompt,
selected index 0 and active tab 0. -/
theorem C6_initial_state :
    initialState.prompt = "stunning promotional image of a deliciously decorated cake, emphasiszing its layers, frosting, and toppings in an enticing setting." ∧
    initialState.selected = 0 ∧ initialState.activeTab = 0 :=
  ⟨rfl, rfl, rfl⟩

/-- Claim C7: the segmented control has exactly two mutually exclusive
options, and selecting option i sets the active tab to i with no other
state change (all other fields of the state are untouched). -/
theorem C7_segmented_control (s : ScreenState) (i : Fin 2) :
    segmentLabels.length = 2 ∧
    (∀ a j k : ℕ, segmentIsActive j a = true → segmentIsActive k a = true → j = k) ∧
    step s (Event.tapTab i) = { s with activeTab := i.val } := by
  refine ⟨rfl, fun a j k hj hk => ?_, rfl⟩
  rw [segmentIsActive, beq_iff_eq] at hj hk
  rw [hj, hk]

/-- Claim C8: the POSTER_TYPES catalog is a fixed list of exactly six
entries, and after any sequence of user-interaction events the catalog
in the state is unchanged from its initial value. -/
theorem C8_catalog_fixed :
    POSTER_TYPES.length = 6 ∧
    ∀ evs : List Event, (runEvents initialState evs).posterTypes = POSTER_TYPES :=
  ⟨rfl, fun evs => runEvents_posterTypes evs initialState⟩

/-- Claim C9: tapping the Generate button and tapping either settings
row are no-ops on the whole screen state. -/
theorem C9_noop_taps (s : ScreenState) :
    step s Event.tapGenerate = s ∧
    step s Event.tapSizeRow = s ∧
    step s Event.tapCategoryRow = s :=
  ⟨rfl, rfl, rfl⟩

/-- Claim C10: the card transform depends only on the absolute
distance: two scroll offsets placing the card left edge at equal
distances on opposite sides give identical scale, translateY,
borderOpacity and shadowOpacity; the min(scale, 1.2) guard in the
shadowOpacity formula is redundant since scale never exceeds 1.05, and
shadowOpacity always lies in [0.0525, 0.105]. -/
theorem C10_transform_symmetry_and_shadow (index : ℕ) (d scrollX : ℚ) :
    cardScale index (leftEdge index - d) = cardScale index (leftEdge index + d) ∧
    cardTranslateY index (leftEdge index - d) = cardTranslateY index (leftEdge index + d) ∧
    cardBorderOpacity index (leftEdge index - d) = cardBorderOpacity index (leftEdge index + d) ∧
    cardShadowOpacity index (leftEdge index - d) = cardShadowOpacity index (leftEdge index + d) ∧
    min (cardScale index scrollX) 1.2 = cardScale index scrollX ∧
    0.0525 ≤ cardShadowOpacity index scrollX ∧
    cardShadowOpacity index scrollX ≤ 0.105 := by
  have key : |distanceToLeft index (leftEdge index - d)| =
      |distanceToLeft index (leftEdge index + d)| := by
    unfold distanceToLeft
    rw [show leftEdge index - (leftEdge index - d) = d from by ring,
      show leftEdge index - (leftEdge index + d) = -d from by ring, abs_neg]
  have hb := scale_interp_bounds |distanceToLeft index scrollX|
  have hlo : 0.9 ≤ cardScale index scrollX := hb.1
  have hhi : cardScale index scrollX ≤ 1.05 := hb.2
  have hmin : min (cardScale index scrollX) 1.2 = cardScale index scrollX :=
    min_eq_left (by linarith)
  have hshadow : cardShadowOpacity index scrollX =
      0.35 * (1.2 - cardScale index scrollX) := by
    unfold cardShadowOpacity
    rw [hmin]
  refine ⟨?_, ?_, ?_, ?_, hmin, ?_, ?_⟩
  · unfold cardScale
    rw [key]
  · unfold cardTranslateY
    rw [key]
  · unfold cardBorderOpacity
    rw [key]
  · unfold cardShadowOpacity cardScale
    rw [key]
  · rw [hshadow]
    linarith
  · rw [hshadow]
    linarith
